import Mathlib

/-!
Shallow embedding of `ghactions.toolkit._context` (class `GithubContext` and
the value tuples `GitHubContextRepo` / `GitHubContextIssue`), together with
proofs settling the specification claims about it.

Python dictionaries decoded from JSON are modelled by the `Json` / `JObj`
types below; Python `dict.get` / `d[k]` / truthiness are modelled by
`Json.pyGet`, `Json.pyIndex` and `Json.truthy`.  Exceptions raised by the
Python code are modelled by `Except PyError`.  The process environment and
the file system are explicit parameters (`Env`, `FS`).  The two
`functools.cached_property` members (`repository`, `issue`) are modelled by
explicit cache fields on the context record, read through
`repositoryRead` / `issueRead` which return the (possibly updated) record.
-/

mutual

/-- JSON values as produced by `json.loads`.  Arrays are omitted: no context
derivation in the source consults an array, and every claim is about object
or scalar payloads.  Numbers are modelled by `Int` (no claim involves
fractional numbers). -/
inductive Json where
  | null : Json
  | bool (b : Bool) : Json
  | num (n : Int) : Json
  | str (s : String) : Json
  | obj (o : JObj) : Json

/-- Association list of string keys to JSON values, modelling a decoded
Python dictionary (keys unique, insertion order irrelevant to the claims). -/
inductive JObj where
  | nil : JObj
  | cons (k : String) (v : Json) (rest : JObj) : JObj

end

mutual

def Json.beq : Json → Json → Bool
  | .null, .null => true
  | .bool a, .bool b => a == b
  | .num a, .num b => a == b
  | .str a, .str b => a == b
  | .obj a, .obj b => JObj.beq a b
  | _, _ => false

def JObj.beq : JObj → JObj → Bool
  | .nil, .nil => true
  | .cons k v r, .cons k' v' r' => k == k' && Json.beq v v' && JObj.beq r r'
  | _, _ => false

end

mutual

theorem Json.beq_eq : ∀ a b : Json, Json.beq a b = true → a = b
  | .null, .null, _ => rfl
  | .bool a, .bool b, h => by
    simp only [Json.beq, beq_iff_eq] at h; exact h ▸ rfl
  | .num a, .num b, h => by
    simp only [Json.beq, beq_iff_eq] at h; exact h ▸ rfl
  | .str a, .str b, h => by
    simp only [Json.beq, beq_iff_eq] at h; exact h ▸ rfl
  | .obj a, .obj b, h => by
    rw [JObj.beq_implies_eq a b h]

theorem JObj.beq_implies_eq : ∀ a b : JObj, JObj.beq a b = true → a = b
  | .nil, .nil, _ => rfl
  | .cons k v r, .cons k' v' r', h => by
    simp only [JObj.beq, Bool.and_eq_true, beq_iff_eq] at h
    rw [h.1.1, Json.beq_eq v v' h.1.2, JObj.beq_implies_eq r r' h.2]

end

mutual

theorem Json.beq_refl : ∀ a : Json, Json.beq a a = true
  | .null => rfl
  | .bool a => by simp [Json.beq]
  | .num a => by simp [Json.beq]
  | .str a => by simp [Json.beq]
  | .obj a => JObj.beq_self a

theorem JObj.beq_self : ∀ a : JObj, JObj.beq a a = true
  | .nil => rfl
  | .cons k v r => by
    simp only [JObj.beq, Bool.and_eq_true, beq_iff_eq]
    exact ⟨⟨trivial, Json.beq_refl v⟩, JObj.beq_self r⟩

end

instance : DecidableEq Json := fun a b =>
  if h : Json.beq a b = true then .isTrue (Json.beq_eq a b h)
  else .isFalse (fun hab => h (hab ▸ Json.beq_refl a))

instance : DecidableEq JObj := fun a b =>
  if h : JObj.beq a b = true then .isTrue (JObj.beq_implies_eq a b h)
  else .isFalse (fun hab => h (hab ▸ JObj.beq_self a))

/-- Lookup of a key in a decoded JSON object, modelling Python dictionary
key lookup (`k in d` / the value behind it). -/
def JObj.lookup : JObj → String → Option Json
  | .nil, _ => none
  | .cons k v rest, key => if k = key then some v else JObj.lookup rest key

/-- Python truthiness of a JSON-decoded value: `None`, `False`, `0`, `""`
and `{}` are falsy, everything else is truthy. -/
def Json.truthy : Json → Bool
  | .null => false
  | .bool b => b
  | .num n => n != 0
  | .str s => s != ""
  | .obj .nil => false
  | .obj (.cons _ _ _) => true

/-- Truthiness filter on an optional value (Python `x or y` keeps `x` iff
`x` is not `None` and truthy). -/
def Json.truthyOpt : Option Json → Option Json
  | some v => if Json.truthy v then some v else none
  | none => none

deriving instance DecidableEq for Except

/-- Errors raised by the Python code, as far as the claims are concerned. -/
inductive PyError where
  | typeError : PyError
  | keyError (k : String) : PyError
  | attributeError : PyError
  | parseError : PyError
  | fileNotFoundError (p : String) : PyError
deriving DecidableEq, Repr

/-- Python `d.get(k)` on a decoded JSON value: returns the value behind the
key (or `None`) when the receiver is a dictionary, raises `AttributeError`
otherwise (e.g. `json.loads` produced a string or number). -/
def Json.pyGet (j : Json) (k : String) : Except PyError (Option Json) :=
  match j with
  | .obj o => .ok (JObj.lookup o k)
  | _ => .error .attributeError

/-- Python `d[k]` on a decoded JSON value: the value behind the key when the
receiver is a dictionary holding it, `KeyError` when the key is missing,
`TypeError` when the receiver is not a dictionary. -/
def Json.pyIndex (j : Json) (k : String) : Except PyError Json :=
  match j with
  | .obj o =>
    match JObj.lookup o k with
    | some v => .ok v
    | none => .error (.keyError k)
  | _ => .error .typeError

mutual

/-- Python `repr` of a JSON-decoded value (used by `str` on containers). -/
def Json.pyRepr : Json → String
  | .null => "None"
  | .bool true => "True"
  | .bool false => "False"
  | .num n => toString n
  | .str s => "'" ++ s ++ "'"
  | .obj o => "\x7b" ++ JObj.pyReprInner o ++ "\x7d"

/-- Comma-separated `repr` of the entries of a decoded dictionary. -/
def JObj.pyReprInner : JObj → String
  | .nil => ""
  | .cons k v .nil => "'" ++ k ++ "': " ++ Json.pyRepr v
  | .cons k v (.cons k' v' rest) =>
    "'" ++ k ++ "': " ++ Json.pyRepr v ++ ", " ++ JObj.pyReprInner (.cons k' v' rest)

end

/-- Python `str` of a JSON-decoded value, as used by f-string interpolation
in `repository_url`. -/
def Json.pyStr : Json → String
  | .str s => s
  | j => Json.pyRepr j

/-- Environment mapping (`os.environ` snapshot / the `environ` argument):
variable name to string value selected by first match. -/
abbrev Env := List (String × String)

/-- Python `environ.get(k)`. -/
def Env.get : Env → String → Option String
  | [], _ => none
  | (k, v) :: rest, key => if k = key then some v else Env.get rest key

/-- What the file system holds at a path: a readable file whose contents
parse as the given JSON value, or a readable file with malformed contents. -/
inductive FileData where
  | jsonFile (j : Json) : FileData
  | malformed : FileData
deriving DecidableEq

/-- File system model: paths (as strings) mapped to file data.  Paths not
listed do not denote files. -/
abbrev FS := List (String × FileData)

/-- Lookup of a path in the file system model. -/
def FS.find : FS → String → Option FileData
  | [], _ => none
  | (p, d) :: rest, path => if p = path then some d else FS.find rest path

/-- Python `Path(p).is_file()`.  The empty string is never a file: `Path("")`
normalises to `Path(".")`, the current directory. -/
def FS.isFile (fs : FS) (p : String) : Bool :=
  p != "" && (FS.find fs p).isSome

/-- Python `json.loads(Path(p).read_text())`: the parsed JSON value, a
`ParseError` (`json.JSONDecodeError`) on malformed contents, or
`FileNotFoundError` when the path does not denote a file. -/
def FS.readJson (fs : FS) (p : String) : Except PyError Json :=
  match FS.find fs p with
  | some (.jsonFile j) => .ok j
  | some .malformed => .error .parseError
  | none => .error (.fileNotFoundError p)

/-- Source `GitHubContextRepo`: a named tuple `(owner, name)`.  The fields
are declared `str` in the source but Python never checks this, so values
taken from the payload are stored verbatim; the fields are therefore
modelled as JSON values (environment-derived components are `Json.str`). -/
structure GitHubContextRepo where
  owner : Json
  name : Json
deriving DecidableEq

/-- Source `GitHubContextIssue`: a named tuple `(owner, repo, number)`; as
with `GitHubContextRepo` the fields hold whatever value was supplied. -/
structure GitHubContextIssue where
  owner : Json
  repo : Json
  number : Json
deriving DecidableEq

/-- Source class `GithubContext`, generic over the type of the
caller-supplied event (`EventTypeVar`).  The two `functools.cached_property`
members are modelled by explicit cache fields: `none` means "not computed
yet", `some v` means "first computation produced `v` and is cached".  A
freshly constructed instance has both caches empty. -/
structure GithubContext (ε : Type) where
  _event_path : Option String
  env : Env
  event : ε
  _payload : Json
  repositoryCache : Option (Option GitHubContextRepo) := none
  issueCache : Option (Option GitHubContextIssue) := none
deriving DecidableEq

/-- Source `self.env = environ or os.environ.copy()`: the explicit snapshot
when supplied and non-empty (a Python empty dict is falsy), otherwise a copy
of the live process environment. -/
def resolveSnapshot (live : Env) (environ : Option Env) : Env :=
  match environ with
  | some e => if e.isEmpty then live else e
  | none => live

/-- Source property `event_path`: `value = self._event_path or
self.env.get("GITHUB_EVENT_PATH")`, then `Path(value) if value else None`.
A `Path` argument is always truthy; an environment value is truthy iff
non-empty. -/
def GithubContext.event_path (c : GithubContext ε) : Option String :=
  match c._event_path with
  | some p => some p
  | none =>
    match Env.get c.env "GITHUB_EVENT_PATH" with
    | some v => if v = "" then none else some v
    | none => none

/-- Source `GithubContext.__init__`: store the explicit path argument,
resolve the environment snapshot, store the event, then load the raw
payload from `self.event_path` when it denotes a file (a JSON parse failure
propagates out of the constructor), else use an empty dict. -/
def GithubContext.construct (live : Env) (fs : FS) (environ : Option Env)
    (event : ε) (_event_path : Option String) :
    Except PyError (GithubContext ε) :=
  let env := resolveSnapshot live environ
  let base : GithubContext ε :=
    { _event_path := _event_path, env := env, event := event,
      _payload := Json.obj .nil }
  match GithubContext.event_path base with
  | some p =>
    if FS.isFile fs p then
      match FS.readJson fs p with
      | .ok j => .ok { base with _payload := j }
      | .error e => .error e
    else .ok base
  | none => .ok base

/-- Source property `action`. -/
def GithubContext.action (c : GithubContext ε) : String :=
  (Env.get c.env "GITHUB_ACTION").getD ""

/-- Source property `action_path`: `Path(value) if value else None`. -/
def GithubContext.action_path (c : GithubContext ε) : Option String :=
  match Env.get c.env "GITHUB_ACTION_PATH" with
  | some v => if v = "" then none else some v
  | none => none

/-- Source property `action_ref`. -/
def GithubContext.action_ref (c : GithubContext ε) : Option String :=
  Env.get c.env "GITHUB_ACTION_REF"

/-- Source property `action_repository`. -/
def GithubContext.action_repository (c : GithubContext ε) : Option String :=
  Env.get c.env "GITHUB_ACTION_REPOSITORY"

/-- Source property `actor`. -/
def GithubContext.actor (c : GithubContext ε) : String :=
  (Env.get c.env "GITHUB_ACTOR").getD ""

/-- Source property `api_url`. -/
def GithubContext.api_url (c : GithubContext ε) : String :=
  (Env.get c.env "GITHUB_API_URL").getD "https://api.github.com"

/-- Source property `base_ref`. -/
def GithubContext.base_ref (c : GithubContext ε) : Option String :=
  Env.get c.env "GITHUB_BASE_REF"

/-- Source property `event_name`. -/
def GithubContext.event_name (c : GithubContext ε) : String :=
  (Env.get c.env "GITHUB_EVENT_NAME").getD ""

/-- Source property `graphql_url`. -/
def GithubContext.graphql_url (c : GithubContext ε) : String :=
  (Env.get c.env "GITHUB_GRAPHQL_URL").getD "https://api.github.com/graphql"

/-- Source property `head_ref`. -/
def GithubContext.head_ref (c : GithubContext ε) : Option String :=
  Env.get c.env "GITHUB_HEAD_REF"

/-- Source property `job`. -/
def GithubContext.job (c : GithubContext ε) : Option String :=
  Env.get c.env "GITHUB_JOB"

/-- Source property `ref`. -/
def GithubContext.ref (c : GithubContext ε) : String :=
  (Env.get c.env "GITHUB_REF").getD ""

/-- Source property `ref_name`. -/
def GithubContext.ref_name (c : GithubContext ε) : String :=
  (Env.get c.env "GITHUB_REF_NAME").getD ""

/-- Python `str.lower()`, character by character (the claims only exercise
ASCII values, where this matches Python). -/
def pyLower (s : String) : String :=
  String.mk (s.data.map Char.toLower)

/-- Source property `ref_protected`:
`self.env.get("GITHUB_REF_PROTECTED", "").lower() in ("1", "true")`. -/
def GithubContext.ref_protected (c : GithubContext ε) : Bool :=
  let s := pyLower ((Env.get c.env "GITHUB_REF_PROTECTED").getD "")
  s == "1" || s == "true"

/-- Source property `ref_type`. -/
def GithubContext.ref_type (c : GithubContext ε) : String :=
  (Env.get c.env "GITHUB_REF_TYPE").getD "branch"

/-- Source property `server_url`. -/
def GithubContext.server_url (c : GithubContext ε) : String :=
  (Env.get c.env "GITHUB_SERVER_URL").getD "https://github.com"

/-- Source property `sha`. -/
def GithubContext.sha (c : GithubContext ε) : String :=
  (Env.get c.env "GITHUB_SHA").getD ""

/-- Source property `token`. -/
def GithubContext.token (c : GithubContext ε) : String :=
  (Env.get c.env "GITHUB_TOKEN").getD ""

/-- Source property `triggering_actor`. -/
def GithubContext.triggering_actor (c : GithubContext ε) : String :=
  (Env.get c.env "GITHUB_TRIGGERING_ACTOR").getD ""

/-- Source property `workflow`. -/
def GithubContext.workflow (c : GithubContext ε) : String :=
  (Env.get c.env "GITHUB_WORKFLOW").getD ""

/-- Source property `workflow_ref`. -/
def GithubContext.workflow_ref (c : GithubContext ε) : String :=
  (Env.get c.env "GITHUB_WORKFLOW_REF").getD ""

/-- Source property `workflow_sha`. -/
def GithubContext.workflow_sha (c : GithubContext ε) : String :=
  (Env.get c.env "GITHUB_WORKFLOW_SHA").getD ""

/-- Helper for `pySplit`: walk the characters, cutting at each separator
(the accumulator holds the current segment reversed). -/
def pySplitAux (sep : Char) : List Char → List Char → List String
  | [], acc => [String.mk acc.reverse]
  | ch :: rest, acc =>
    if ch = sep then String.mk acc.reverse :: pySplitAux sep rest []
    else pySplitAux sep rest (ch :: acc)

/-- Python `s.split(sep)` for a one-character separator (as in the source,
which only splits on "/"): splits at every occurrence, keeping empty
segments, and yields one segment even for the empty string. -/
def pySplit (s : String) (sep : Char) : List String :=
  pySplitAux sep s.data []

/-- Source `GitHubContextRepo(*value.split("/"))`: Python `str.split` with a
separator splits on every occurrence, and the named-tuple constructor
raises `TypeError` unless it receives exactly its two fields. -/
def mkRepoStar : List String → Except PyError GitHubContextRepo
  | [o, n] => .ok ⟨Json.str o, Json.str n⟩
  | _ => .error .typeError

/-- Source fallback branch of the `repository` property:
`repo = self._payload.get("repository"); if not repo: return None;
return GitHubContextRepo(repo["owner"]["login"], repo["name"])`. -/
def repositoryFromPayload (p : Json) : Except PyError (Option GitHubContextRepo) :=
  match Json.pyGet p "repository" with
  | .error e => .error e
  | .ok repo =>
    match Json.truthyOpt repo with
    | none => .ok none
    | some r =>
      match Json.pyIndex r "owner" with
      | .error e => .error e
      | .ok owner =>
        match Json.pyIndex owner "login" with
        | .error e => .error e
        | .ok login =>
          match Json.pyIndex r "name" with
          | .error e => .error e
          | .ok name => .ok (some ⟨login, name⟩)

/-- Body of the source `repository` cached property: if
`self.env.get("GITHUB_REPOSITORY")` is truthy (present and non-empty),
split the value on `/` and build the named tuple from the parts; otherwise
fall back to the raw payload. -/
def GithubContext.repositoryCompute (c : GithubContext ε) :
    Except PyError (Option GitHubContextRepo) :=
  match Env.get c.env "GITHUB_REPOSITORY" with
  | some v =>
    if v = "" then repositoryFromPayload c._payload
    else (mkRepoStar (pySplit v '/')).map some
  | none => repositoryFromPayload c._payload

/-- Read of the source `repository` cached property: return the cached
value when present; otherwise run the body once and cache the result
(`functools.cached_property` does not cache when the body raises). -/
def GithubContext.repositoryRead (c : GithubContext ε) :
    Except PyError (Option GitHubContextRepo × GithubContext ε) :=
  match c.repositoryCache with
  | some v => .ok (v, c)
  | none =>
    match GithubContext.repositoryCompute c with
    | .ok v => .ok (v, { c with repositoryCache := some v })
    | .error e => .error e

/-- Source candidate selection in the `issue` property:
`self._payload.get("issue") or self._payload.get("pull_request") or
self._payload` (left-to-right, keeping the first truthy value; the second
lookup only happens when the first value is falsy). -/
def GithubContext.candidatePayload (c : GithubContext ε) : Except PyError Json :=
  match Json.pyGet c._payload "issue" with
  | .error e => .error e
  | .ok i =>
    match Json.truthyOpt i with
    | some v => .ok v
    | none =>
      match Json.pyGet c._payload "pull_request" with
      | .error e => .error e
      | .ok pr =>
        match Json.truthyOpt pr with
        | some w => .ok w
        | none => .ok c._payload

/-- Body of the source `issue` cached property: read `number` from the
candidate object; `if not number or not self.repository: return None`
(short-circuit: `repository` is not read when `number` is falsy); else
build the named tuple from the memoized repository and the number. -/
def GithubContext.issueCompute (c : GithubContext ε) :
    Except PyError (Option GitHubContextIssue × GithubContext ε) :=
  match GithubContext.candidatePayload c with
  | .error e => .error e
  | .ok cand =>
    match Json.pyGet cand "number" with
    | .error e => .error e
    | .ok number =>
      match Json.truthyOpt number with
      | none => .ok (none, c)
      | some nv =>
        match GithubContext.repositoryRead c with
        | .error e => .error e
        | .ok (none, c') => .ok (none, c')
        | .ok (some repo, c') => .ok (some ⟨repo.owner, repo.name, nv⟩, c')

/-- Read of the source `issue` cached property (memoized like
`repository`). -/
def GithubContext.issueRead (c : GithubContext ε) :
    Except PyError (Option GitHubContextIssue × GithubContext ε) :=
  match c.issueCache with
  | some v => .ok (v, c)
  | none =>
    match GithubContext.issueCompute c with
    | .ok (v, c') => .ok (v, { c' with issueCache := some v })
    | .error e => .error e

/-- Source property `repository_url`:
`f"{self.server_url}/{self.repository.owner}/{self.repository.name}" if
self.repository else None`; reading it populates the `repository` cache. -/
def GithubContext.repository_url (c : GithubContext ε) :
    Except PyError (Option String × GithubContext ε) :=
  match GithubContext.repositoryRead c with
  | .error e => .error e
  | .ok (none, c') => .ok (none, c')
  | .ok (some repo, c') =>
    .ok (some (GithubContext.server_url c' ++ "/" ++ Json.pyStr repo.owner
      ++ "/" ++ Json.pyStr repo.name), c')

/-- Path resolution in the source classmethod `from_file`:
`if not event_path: event_path = os.getenv("GITHUB_EVENT_PATH", "")` — the
explicit argument when truthy (a non-empty string), else the value of
`GITHUB_EVENT_PATH` in the live process environment, else `""`. -/
def fromFileResolved (live : Env) (_event_path : Option String) : String :=
  match _event_path with
  | some p => if p = "" then (Env.get live "GITHUB_EVENT_PATH").getD "" else p
  | none => (Env.get live "GITHUB_EVENT_PATH").getD ""

/-- Source classmethod `from_file`: resolve the path, raise
`FileNotFoundError` unless it denotes a file, parse it as JSON and hand the
parsed value to the constructor as the event, with the same path as the
explicit path argument. -/
def GithubContext.from_file (live : Env) (fs : FS) (environ : Option Env)
    (_event_path : Option String) : Except PyError (GithubContext Json) :=
  let p := fromFileResolved live _event_path
  if FS.isFile fs p then
    match FS.readJson fs p with
    | .ok j => GithubContext.construct live fs environ j (some p)
    | .error e => .error e
  else .error (.fileNotFoundError p)

/-- The accessors of the passthrough table (spec §4.1), one constructor per
table row. -/
inductive PassAccessor where
  | action | action_path | action_ref | action_repository | actor
  | api_url | base_ref | event_name | graphql_url | head_ref | job
  | ref | ref_name | ref_protected | ref_type | server_url | sha
  | token | triggering_actor | workflow | workflow_ref | workflow_sha
deriving DecidableEq, Repr

/-- Common result type for the passthrough accessors (their Python return
types are `str`, `Path | None` / `str | None`, and `bool`). -/
inductive PassVal where
  | vstr (v : String) : PassVal
  | vopt (v : Option String) : PassVal
  | vbool (v : Bool) : PassVal
deriving DecidableEq, Repr

/-- The source accessor behind each table row, read on a context. -/
def passthroughRead (c : GithubContext ε) : PassAccessor → PassVal
  | .action => .vstr (GithubContext.action c)
  | .action_path => .vopt (GithubContext.action_path c)
  | .action_ref => .vopt (GithubContext.action_ref c)
  | .action_repository => .vopt (GithubContext.action_repository c)
  | .actor => .vstr (GithubContext.actor c)
  | .api_url => .vstr (GithubContext.api_url c)
  | .base_ref => .vopt (GithubContext.base_ref c)
  | .event_name => .vstr (GithubContext.event_name c)
  | .graphql_url => .vstr (GithubContext.graphql_url c)
  | .head_ref => .vopt (GithubContext.head_ref c)
  | .job => .vopt (GithubContext.job c)
  | .ref => .vstr (GithubContext.ref c)
  | .ref_name => .vstr (GithubContext.ref_name c)
  | .ref_protected => .vbool (GithubContext.ref_protected c)
  | .ref_type => .vstr (GithubContext.ref_type c)
  | .server_url => .vstr (GithubContext.server_url c)
  | .sha => .vstr (GithubContext.sha c)
  | .token => .vstr (GithubContext.token c)
  | .triggering_actor => .vstr (GithubContext.triggering_actor c)
  | .workflow => .vstr (GithubContext.workflow c)
  | .workflow_ref => .vstr (GithubContext.workflow_ref c)
  | .workflow_sha => .vstr (GithubContext.workflow_sha c)

/-- Backing environment variable of each table row, from the spec's table. -/
def passthroughVar : PassAccessor → String
  | .action => "GITHUB_ACTION"
  | .action_path => "GITHUB_ACTION_PATH"
  | .action_ref => "GITHUB_ACTION_REF"
  | .action_repository => "GITHUB_ACTION_REPOSITORY"
  | .actor => "GITHUB_ACTOR"
  | .api_url => "GITHUB_API_URL"
  | .base_ref => "GITHUB_BASE_REF"
  | .event_name => "GITHUB_EVENT_NAME"
  | .graphql_url => "GITHUB_GRAPHQL_URL"
  | .head_ref => "GITHUB_HEAD_REF"
  | .job => "GITHUB_JOB"
  | .ref => "GITHUB_REF"
  | .ref_name => "GITHUB_REF_NAME"
  | .ref_protected => "GITHUB_REF_PROTECTED"
  | .ref_type => "GITHUB_REF_TYPE"
  | .server_url => "GITHUB_SERVER_URL"
  | .sha => "GITHUB_SHA"
  | .token => "GITHUB_TOKEN"
  | .triggering_actor => "GITHUB_TRIGGERING_ACTOR"
  | .workflow => "GITHUB_WORKFLOW"
  | .workflow_ref => "GITHUB_WORKFLOW_REF"
  | .workflow_sha => "GITHUB_WORKFLOW_SHA"

/-- Documented default of each table row when the variable is unset, from
the spec's table ("absent" is `none`). -/
def passthroughDefault : PassAccessor → PassVal
  | .action => .vstr ""
  | .action_path => .vopt none
  | .action_ref => .vopt none
  | .action_repository => .vopt none
  | .actor => .vstr ""
  | .api_url => .vstr "https://api.github.com"
  | .base_ref => .vopt none
  | .event_name => .vstr ""
  | .graphql_url => .vstr "https://api.github.com/graphql"
  | .head_ref => .vopt none
  | .job => .vopt none
  | .ref => .vstr ""
  | .ref_name => .vstr ""
  | .ref_protected => .vbool false
  | .ref_type => .vstr "branch"
  | .server_url => .vstr "https://github.com"
  | .sha => .vstr ""
  | .token => .vstr ""
  | .triggering_actor => .vstr ""
  | .workflow => .vstr ""
  | .workflow_ref => .vstr ""
  | .workflow_sha => .vstr ""

/-- Documented result of each table row when the variable is set to `v`,
following the claim as amended: the value itself, except `ref_protected`
(true iff the lowercased value is "1" or "true") and `action_path` (absent
when the value is the empty string, since the source converts with
`Path(value) if value else None`). -/
def passthroughOnSet (a : PassAccessor) (v : String) : PassVal :=
  match a with
  | .ref_protected => .vbool (pyLower v == "1" || pyLower v == "true")
  | .action_path => .vopt (if v = "" then none else some v)
  | .action_ref | .action_repository | .base_ref | .head_ref | .job => .vopt (some v)
  | _ => .vstr v

/-- Behaviour of a passthrough accessor as the (amended) claim documents
it: default when the backing variable is unset, the set-value result
otherwise. -/
def passthroughSpecRead (env : Env) (a : PassAccessor) : PassVal :=
  match Env.get env (passthroughVar a) with
  | none => passthroughDefault a
  | some v => passthroughOnSet a v

/-- Both branches of `repositoryRead` leave a populated cache behind on
success. -/
theorem repositoryRead_cache_of_ok {ε : Type} {c c' : GithubContext ε}
    {r : Option GitHubContextRepo}
    (h : GithubContext.repositoryRead c = .ok (r, c')) :
    c'.repositoryCache = some r := by
  unfold GithubContext.repositoryRead at h
  cases hc : c.repositoryCache with
  | some v =>
    rw [hc] at h
    cases h
    exact hc
  | none =>
    rw [hc] at h
    cases hr : GithubContext.repositoryCompute c with
    | ok v => rw [hr] at h; cases h; rfl
    | error e => rw [hr] at h; cases h

/-- Both branches of `issueRead` leave a populated cache behind on
success. -/
theorem issueRead_cache_of_ok {ε : Type} {c c' : GithubContext ε}
    {i : Option GitHubContextIssue}
    (h : GithubContext.issueRead c = .ok (i, c')) :
    c'.issueCache = some i := by
  unfold GithubContext.issueRead at h
  cases hc : c.issueCache with
  | some v =>
    rw [hc] at h
    cases h
    exact hc
  | none =>
    rw [hc] at h
    cases hr : GithubContext.issueCompute c with
    | ok v => rw [hr] at h; cases h; rfl
    | error e => rw [hr] at h; cases h

/-- Claim C6 (amended): for every accessor in the passthrough table, if the
backing environment variable is unset the accessor returns exactly the
documented default, and if it is set to value `v` the accessor returns `v`
— except `ref_protected`, which returns true iff `v` lowercases to "1" or
"true", and except `action_path`, which returns absent when `v` is the
empty string. -/
theorem passthrough_table_spec {ε : Type} (c : GithubContext ε)
    (a : PassAccessor) : passthroughRead c a = passthroughSpecRead c.env a := by
  cases a
  case action =>
    cases h : Env.get c.env "GITHUB_ACTION" <;>
      simp [passthroughRead, passthroughSpecRead, passthroughVar,
        passthroughDefault, passthroughOnSet, GithubContext.action, h]
  case action_path =>
    cases h : Env.get c.env "GITHUB_ACTION_PATH" <;>
      simp [passthroughRead, passthroughSpecRead, passthroughVar,
        passthroughDefault, passthroughOnSet, GithubContext.action_path, h]
  case action_ref =>
    cases h : Env.get c.env "GITHUB_ACTION_REF" <;>
      simp [passthroughRead, passthroughSpecRead, passthroughVar,
        passthroughDefault, passthroughOnSet, GithubContext.action_ref, h]
  case action_repository =>
    cases h : Env.get c.env "GITHUB_ACTION_REPOSITORY" <;>
      simp [passthroughRead, passthroughSpecRead, passthroughVar,
        passthroughDefault, passthroughOnSet, GithubContext.action_repository, h]
  case actor =>
    cases h : Env.get c.env "GITHUB_ACTOR" <;>
      simp [passthroughRead, passthroughSpecRead, passthroughVar,
        passthroughDefault, passthroughOnSet, GithubContext.actor, h]
  case api_url =>
    cases h : Env.get c.env "GITHUB_API_URL" <;>
      simp [passthroughRead, passthroughSpecRead, passthroughVar,
        passthroughDefault, passthroughOnSet, GithubContext.api_url, h]
  case base_ref =>
    cases h : Env.get c.env "GITHUB_BASE_REF" <;>
      simp [passthroughRead, passthroughSpecRead, passthroughVar,
        passthroughDefault, passthroughOnSet, GithubContext.base_ref, h]
  case event_name =>
    cases h : Env.get c.env "GITHUB_EVENT_NAME" <;>
      simp [passthroughRead, passthroughSpecRead, passthroughVar,
        passthroughDefault, passthroughOnSet, GithubContext.event_name, h]
  case graphql_url =>
    cases h : Env.get c.env "GITHUB_GRAPHQL_URL" <;>
      simp [passthroughRead, passthroughSpecRead, passthroughVar,
        passthroughDefault, passthroughOnSet, GithubContext.graphql_url, h]
  case head_ref =>
    cases h : Env.get c.env "GITHUB_HEAD_REF" <;>
      simp [passthroughRead, passthroughSpecRead, passthroughVar,
        passthroughDefault, passthroughOnSet, GithubContext.head_ref, h]
  case job =>
    cases h : Env.get c.env "GITHUB_JOB" <;>
      simp [passthroughRead, passthroughSpecRead, passthroughVar,
        passthroughDefault, passthroughOnSet, GithubContext.job, h]
  case ref =>
    cases h : Env.get c.env "GITHUB_REF" <;>
      simp [passthroughRead, passthroughSpecRead, passthroughVar,
        passthroughDefault, passthroughOnSet, GithubContext.ref, h]
  case ref_name =>
    cases h : Env.get c.env "GITHUB_REF_NAME" <;>
      simp [passthroughRead, passthroughSpecRead, passthroughVar,
        passthroughDefault, passthroughOnSet, GithubContext.ref_name, h]
  case ref_protected =>
    cases h : Env.get c.env "GITHUB_REF_PROTECTED" <;>
      simp [passthroughRead, passthroughSpecRead, passthroughVar,
        passthroughDefault, passthroughOnSet, GithubContext.ref_protected, h] <;>
      decide
  case ref_type =>
    cases h : Env.get c.env "GITHUB_REF_TYPE" <;>
      simp [passthroughRead, passthroughSpecRead, passthroughVar,
        passthroughDefault, passthroughOnSet, GithubContext.ref_type, h]
  case server_url =>
    cases h : Env.get c.env "GITHUB_SERVER_URL" <;>
      simp [passthroughRead, passthroughSpecRead, passthroughVar,
        passthroughDefault, passthroughOnSet, GithubContext.server_url, h]
  case sha =>
    cases h : Env.get c.env "GITHUB_SHA" <;>
      simp [passthroughRead, passthroughSpecRead, passthroughVar,
        passthroughDefault, passthroughOnSet, GithubContext.sha, h]
  case token =>
    cases h : Env.get c.env "GITHUB_TOKEN" <;>
      simp [passthroughRead, passthroughSpecRead, passthroughVar,
        passthroughDefault, passthroughOnSet, GithubContext.token, h]
  case triggering_actor =>
    cases h : Env.get c.env "GITHUB_TRIGGERING_ACTOR" <;>
      simp [passthroughRead, passthroughSpecRead, passthroughVar,
        passthroughDefault, passthroughOnSet, GithubContext.triggering_actor, h]
  case workflow =>
    cases h : Env.get c.env "GITHUB_WORKFLOW" <;>
      simp [passthroughRead, passthroughSpecRead, passthroughVar,
        passthroughDefault, passthroughOnSet, GithubContext.workflow, h]
  case workflow_ref =>
    cases h : Env.get c.env "GITHUB_WORKFLOW_REF" <;>
      simp [passthroughRead, passthroughSpecRead, passthroughVar,
        passthroughDefault, passthroughOnSet, GithubContext.workflow_ref, h]
  case workflow_sha =>
    cases h : Env.get c.env "GITHUB_WORKFLOW_SHA" <;>
      simp [passthroughRead, passthroughSpecRead, passthroughVar,
        passthroughDefault, passthroughOnSet, GithubContext.workflow_sha, h]

/-- Claim C6, counterexample to the claim as stated: with
`GITHUB_ACTION_PATH` set to the value `""`, the `action_path` accessor
returns absent rather than that value. -/
theorem passthrough_action_path_empty_cex :
    Env.get (GithubContext.env ⟨none, [("GITHUB_ACTION_PATH", "")], Json.null,
        Json.obj .nil, none, none⟩) "GITHUB_ACTION_PATH" = some "" ∧
      GithubContext.action_path (⟨none, [("GITHUB_ACTION_PATH", "")], Json.null,
        Json.obj .nil, none, none⟩ : GithubContext Json) = none := by
  constructor <;> rfl

/-- Starred construction of the repository tuple fails whenever the number
of split components differs from two. -/
theorem mkRepoStar_of_len_ne {l : List String} (h : l.length ≠ 2) :
    mkRepoStar l = .error .typeError := by
  match l with
  | [] => rfl
  | [a] => rfl
  | [a, b] => exact absurd rfl h
  | a :: b :: d :: rest => rfl

/-- Claim C1 (amended): on a fresh instance, if the environment snapshot's
GITHUB_REPOSITORY is present and non-empty, the value is split on every
"/" (environment wins over any payload content): with exactly two
components the accessor returns a RepositoryRef of those components, and
with any other number of components it raises a TypeError; else if the raw
payload is an object whose repository member is a truthy object with nested
owner.login and name, it returns a RepositoryRef built from those; else
(repository member absent or falsy) it returns absent. -/
theorem repository_derivation {ε : Type} (c : GithubContext ε)
    (hc : c.repositoryCache = none) :
    (∀ v o n, Env.get c.env "GITHUB_REPOSITORY" = some v → v ≠ "" →
      pySplit v '/' = [o, n] →
      GithubContext.repositoryRead c = .ok (some ⟨Json.str o, Json.str n⟩,
        { c with repositoryCache := some (some ⟨Json.str o, Json.str n⟩) })) ∧
    (∀ v, Env.get c.env "GITHUB_REPOSITORY" = some v → v ≠ "" →
      (pySplit v '/').length ≠ 2 →
      GithubContext.repositoryRead c = .error .typeError) ∧
    (∀ po ro oo login nm,
      (Env.get c.env "GITHUB_REPOSITORY" = none ∨
        Env.get c.env "GITHUB_REPOSITORY" = some "") →
      c._payload = .obj po →
      JObj.lookup po "repository" = some (.obj ro) →
      Json.truthy (.obj ro) = true →
      JObj.lookup ro "owner" = some (.obj oo) →
      JObj.lookup oo "login" = some login →
      JObj.lookup ro "name" = some nm →
      GithubContext.repositoryRead c = .ok (some ⟨login, nm⟩,
        { c with repositoryCache := some (some ⟨login, nm⟩) })) ∧
    (∀ po,
      (Env.get c.env "GITHUB_REPOSITORY" = none ∨
        Env.get c.env "GITHUB_REPOSITORY" = some "") →
      c._payload = .obj po →
      Json.truthyOpt (JObj.lookup po "repository") = none →
      GithubContext.repositoryRead c = .ok (none,
        { c with repositoryCache := some none })) := by
  refine ⟨?_, ?_, ?_, ?_⟩
  · intro v o n hv hne hsplit
    simp [GithubContext.repositoryRead, hc, GithubContext.repositoryCompute, hv,
      if_neg hne, hsplit, mkRepoStar, Except.map]
  · intro v hv hne hlen
    simp [GithubContext.repositoryRead, hc, GithubContext.repositoryCompute, hv,
      if_neg hne, mkRepoStar_of_len_ne hlen, Except.map]
  · intro po ro oo login nm henv hp h1 htr h2 h3 h4
    rcases henv with henv | henv <;>
      simp [GithubContext.repositoryRead, hc, GithubContext.repositoryCompute, henv,
        repositoryFromPayload, hp, Json.pyGet, h1, Json.truthyOpt, htr,
        Json.pyIndex, h2, h3, h4]
  · intro po henv hp htr
    rcases henv with henv | henv <;>
      simp [GithubContext.repositoryRead, hc, GithubContext.repositoryCompute, henv,
        repositoryFromPayload, hp, Json.pyGet, htr]

/-- Fresh context whose environment holds GITHUB_REPOSITORY with two
slashes, for the claim C1 counterexample. -/
def repoSplitCexCtx : GithubContext Json :=
  ⟨none, [("GITHUB_REPOSITORY", "a/b/c")], Json.null, Json.obj .nil, none, none⟩

/-- Claim C1, counterexample to the claim as stated: with
GITHUB_REPOSITORY set to "a/b/c", splitting on the first "/" would give
RepositoryRef("a", "b/c"), but the accessor raises a TypeError (the source
splits on every "/" and the two-field named tuple rejects three
arguments), so no RepositoryRef is returned at all. -/
theorem repository_split_cex :
    GithubContext.repositoryRead repoSplitCexCtx = .error .typeError := by
  decide

/-- Fresh contexts exercising each arm of the amended claim C1. -/
def repoEnvCtx : GithubContext Json :=
  ⟨none, [("GITHUB_REPOSITORY", "acme/widgets")],
    Json.null,
    Json.obj (.cons "repository" (Json.obj (.cons "owner"
      (Json.obj (.cons "login" (Json.str "other") .nil))
      (.cons "name" (Json.str "payload") .nil))) .nil),
    none, none⟩

/-- Fresh context with no GITHUB_REPOSITORY and a payload repository
object, for the claim C1 witness. -/
def repoPayloadCtx : GithubContext Json :=
  ⟨none, [], Json.null,
    Json.obj (.cons "repository" (Json.obj (.cons "owner"
      (Json.obj (.cons "login" (Json.str "acme") .nil))
      (.cons "name" (Json.str "widgets") .nil))) .nil),
    none, none⟩

/-- Fresh context with neither source of a repository, for the claim C1
witness. -/
def repoAbsentCtx : GithubContext Json :=
  ⟨none, [("GITHUB_REPOSITORY", "")], Json.null, Json.obj .nil, none, none⟩

/-- Claim C1, witness: the environment arm (which also overrides a payload
naming a different repository), the bad-split arm, the payload arm and the
absent arm, each at a concrete fresh instance. -/
theorem repository_derivation_witness :
    GithubContext.repositoryRead repoEnvCtx =
      .ok (some ⟨Json.str "acme", Json.str "widgets"⟩,
        { repoEnvCtx with
          repositoryCache := some (some ⟨Json.str "acme", Json.str "widgets"⟩) }) ∧
    GithubContext.repositoryRead repoSplitCexCtx = .error .typeError ∧
    GithubContext.repositoryRead repoPayloadCtx =
      .ok (some ⟨Json.str "acme", Json.str "widgets"⟩,
        { repoPayloadCtx with
          repositoryCache := some (some ⟨Json.str "acme", Json.str "widgets"⟩) }) ∧
    GithubContext.repositoryRead repoAbsentCtx =
      .ok (none, { repoAbsentCtx with repositoryCache := some none }) :=
  ⟨(repository_derivation repoEnvCtx rfl).1 "acme/widgets" "acme" "widgets"
      rfl (by decide) (by decide),
   (repository_derivation repoSplitCexCtx rfl).2.1 "a/b/c" rfl (by decide) (by decide),
   (repository_derivation repoPayloadCtx rfl).2.2.1 _ _ _ _ _ (Or.inl rfl)
      rfl rfl rfl rfl rfl rfl,
   (repository_derivation repoAbsentCtx rfl).2.2.2 _ (Or.inr rfl) rfl rfl⟩

/-- Claim C2 (amended): on a fresh instance, the issue accessor selects a
candidate object as the raw payload's issue member if present and truthy,
else its pull_request member if present and truthy, else the raw payload
itself; it then reads number from the candidate, returns absent when
number is absent/falsy or when repository is absent, and otherwise returns
IssueRef(repository.owner, repository.name, number). -/
theorem issue_derivation {ε : Type} (c : GithubContext ε)
    (hic : c.issueCache = none) :
    (∀ o, c._payload = .obj o →
      (∀ v, JObj.lookup o "issue" = some v → Json.truthy v = true →
        GithubContext.candidatePayload c = .ok v) ∧
      (Json.truthyOpt (JObj.lookup o "issue") = none →
        ∀ w, JObj.lookup o "pull_request" = some w → Json.truthy w = true →
          GithubContext.candidatePayload c = .ok w) ∧
      (Json.truthyOpt (JObj.lookup o "issue") = none →
        Json.truthyOpt (JObj.lookup o "pull_request") = none →
        GithubContext.candidatePayload c = .ok (.obj o))) ∧
    (∀ co, GithubContext.candidatePayload c = .ok (.obj co) →
      (Json.truthyOpt (JObj.lookup co "number") = none →
        GithubContext.issueRead c = .ok (none, { c with issueCache := some none })) ∧
      (∀ nv c', JObj.lookup co "number" = some nv → Json.truthy nv = true →
        GithubContext.repositoryRead c = .ok (none, c') →
        GithubContext.issueRead c = .ok (none, { c' with issueCache := some none })) ∧
      (∀ nv r c', JObj.lookup co "number" = some nv → Json.truthy nv = true →
        GithubContext.repositoryRead c = .ok (some r, c') →
        GithubContext.issueRead c = .ok (some ⟨r.owner, r.name, nv⟩,
          { c' with issueCache := some (some ⟨r.owner, r.name, nv⟩) }))) := by
  constructor
  · intro o hp
    refine ⟨?_, ?_, ?_⟩
    · intro v hv htr
      simp [GithubContext.candidatePayload, hp, Json.pyGet, hv, Json.truthyOpt, htr]
    · intro h1 w hw htrw
      simp only [GithubContext.candidatePayload, hp, Json.pyGet, h1, hw]
      simp [Json.truthyOpt, htrw]
    · intro h1 h2
      simp [GithubContext.candidatePayload, hp, Json.pyGet, h1, h2]
  · intro co hcand
    refine ⟨?_, ?_, ?_⟩
    · intro hn
      simp [GithubContext.issueRead, hic, GithubContext.issueCompute, hcand,
        Json.pyGet, hn]
    · intro nv c' hn htr hr
      simp [GithubContext.issueRead, hic, GithubContext.issueCompute, hcand,
        Json.pyGet, hn, Json.truthyOpt, htr, hr]
    · intro nv r c' hn htr hr
      simp [GithubContext.issueRead, hic, GithubContext.issueCompute, hcand,
        Json.pyGet, hn, Json.truthyOpt, htr, hr]

/-- Fresh context whose payload holds a falsy (empty) issue object next to
a pull_request with a number, for the claim C2 counterexample. -/
def issueFalsyCexCtx : GithubContext Json :=
  ⟨none, [("GITHUB_REPOSITORY", "user/repo")], Json.null,
    Json.obj (.cons "issue" (Json.obj .nil)
      (.cons "pull_request" (Json.obj (.cons "number" (Json.str "5") .nil)) .nil)),
    none, none⟩

/-- Claim C2, counterexample to the claim as stated: the payload's issue
member is present (an empty object), so per the claim the candidate would
be that object, number would be absent and the result absent; but the
empty object is falsy, the source falls through to pull_request, and the
accessor returns IssueRef("user", "repo", "5") instead. -/
theorem issue_present_falsy_cex :
    GithubContext.issueRead issueFalsyCexCtx =
      .ok (some ⟨Json.str "user", Json.str "repo", Json.str "5"⟩,
        { issueFalsyCexCtx with
          repositoryCache := some (some ⟨Json.str "user", Json.str "repo"⟩),
          issueCache :=
            some (some ⟨Json.str "user", Json.str "repo", Json.str "5"⟩) }) := by
  decide

/-- Fresh context with a truthy issue object carrying a number, for the
claim C2 witness. -/
def issueNestedCtx : GithubContext Json :=
  ⟨none, [("GITHUB_REPOSITORY", "user/repo")], Json.null,
    Json.obj (.cons "issue" (Json.obj (.cons "number" (Json.str "9") .nil)) .nil),
    none, none⟩

/-- Fresh context with an empty payload, for the claim C2 witness. -/
def issueEmptyCtx : GithubContext Json :=
  ⟨none, [("GITHUB_REPOSITORY", "user/repo")], Json.null, Json.obj .nil,
    none, none⟩

/-- Fresh context with a top-level number but no resolvable repository, for
the claim C2 witness. -/
def issueNoRepoCtx : GithubContext Json :=
  ⟨none, [], Json.null, Json.obj (.cons "number" (Json.str "9") .nil),
    none, none⟩

/-- Claim C2, witness: the nested-issue arm yields IssueRef("user", "repo",
"9"); an empty payload (candidate falls back to the payload itself, number
absent) yields absent; a number with no resolvable repository yields
absent. -/
theorem issue_derivation_witness :
    GithubContext.issueRead issueNestedCtx =
      .ok (some ⟨Json.str "user", Json.str "repo", Json.str "9"⟩,
        { issueNestedCtx with
          repositoryCache := some (some ⟨Json.str "user", Json.str "repo"⟩),
          issueCache :=
            some (some ⟨Json.str "user", Json.str "repo", Json.str "9"⟩) }) ∧
    GithubContext.issueRead issueEmptyCtx =
      .ok (none, { issueEmptyCtx with issueCache := some none }) ∧
    GithubContext.issueRead issueNoRepoCtx =
      .ok (none,
        { issueNoRepoCtx with
          repositoryCache := some none, issueCache := some none }) :=
  ⟨((issue_derivation issueNestedCtx rfl).2
      (.cons "number" (Json.str "9") .nil)
      ((issue_derivation issueNestedCtx rfl).1 _ rfl |>.1 _ rfl (by decide))).2.2
      (Json.str "9") ⟨Json.str "user", Json.str "repo"⟩
      { issueNestedCtx with
        repositoryCache := some (some ⟨Json.str "user", Json.str "repo"⟩) }
      rfl (by decide) (by decide),
   ((issue_derivation issueEmptyCtx rfl).2 .nil
      ((issue_derivation issueEmptyCtx rfl).1 _ rfl |>.2.2 rfl rfl)).1 rfl,
   ((issue_derivation issueNoRepoCtx rfl).2
      (.cons "number" (Json.str "9") .nil)
      ((issue_derivation issueNoRepoCtx rfl).1 _ rfl |>.2.2 rfl rfl)).2.1
      (Json.str "9")
      { issueNoRepoCtx with repositoryCache := some none }
      rfl (by decide) (by decide)⟩

/-- Claim C3: the repository and issue derivations are memoized — reading
repository (or issue) a second time, even after the underlying environment
mapping or payload is externally mutated between the two reads, returns
exactly the value computed on the first read. -/
theorem memoized_reads {ε : Type} (c c' : GithubContext ε) :
    (∀ r, GithubContext.repositoryRead c = .ok (r, c') →
      ∀ (e : Env) (p : Json),
        GithubContext.repositoryRead { c' with env := e, _payload := p } =
          .ok (r, { c' with env := e, _payload := p })) ∧
    (∀ i, GithubContext.issueRead c = .ok (i, c') →
      ∀ (e : Env) (p : Json),
        GithubContext.issueRead { c' with env := e, _payload := p } =
          .ok (i, { c' with env := e, _payload := p })) := by
  constructor
  · intro r h e p
    have hcache := repositoryRead_cache_of_ok h
    simp [GithubContext.repositoryRead, hcache]
  · intro i h e p
    have hcache := issueRead_cache_of_ok h
    simp [GithubContext.issueRead, hcache]

/-- Fresh context for the claim C3 witness, and its state after the first
repository read. -/
def memoRepoCtx : GithubContext Json :=
  ⟨none, [("GITHUB_REPOSITORY", "acme/widgets")], Json.null, Json.obj .nil,
    none, none⟩

/-- State of the claim C3 repository context after the first read. -/
def memoRepoCtxRead : GithubContext Json :=
  { memoRepoCtx with
    repositoryCache := some (some ⟨Json.str "acme", Json.str "widgets"⟩) }

/-- Fresh context for the issue half of the claim C3 witness. -/
def memoIssueCtx : GithubContext Json :=
  ⟨none, [("GITHUB_REPOSITORY", "user/repo")], Json.null,
    Json.obj (.cons "number" (Json.str "9") .nil), none, none⟩

/-- State of the claim C3 issue context after the first read. -/
def memoIssueCtxRead : GithubContext Json :=
  { memoIssueCtx with
    repositoryCache := some (some ⟨Json.str "user", Json.str "repo"⟩),
    issueCache := some (some ⟨Json.str "user", Json.str "repo", Json.str "9"⟩) }

/-- Claim C3, witness: after a first read, emptying the environment and
payload does not change what a second read returns. -/
theorem memoized_reads_witness :
    GithubContext.repositoryRead
        { memoRepoCtxRead with env := [], _payload := Json.obj .nil } =
      .ok (some ⟨Json.str "acme", Json.str "widgets"⟩,
        { memoRepoCtxRead with env := [], _payload := Json.obj .nil }) ∧
    GithubContext.issueRead
        { memoIssueCtxRead with env := [], _payload := Json.obj .nil } =
      .ok (some ⟨Json.str "user", Json.str "repo", Json.str "9"⟩,
        { memoIssueCtxRead with env := [], _payload := Json.obj .nil }) :=
  ⟨(memoized_reads memoRepoCtx memoRepoCtxRead).1 _ (by decide) [] (Json.obj .nil),
   (memoized_reads memoIssueCtx memoIssueCtxRead).2 _ (by decide) [] (Json.obj .nil)⟩

/-- Claim C4 (amended): for a raw payload that is a JSON object, the fields
issue.number, pull_request.number and top-level number are read with safe
absence-handling (missing leads to an absent issue, never an error), and a
missing or falsy top-level repository member likewise leads to an absent
repository; but once the payload's repository member is a truthy object,
its owner.login and name are accessed unconditionally, so a missing owner
raises a KeyError instead of yielding an absent result. -/
theorem safe_absence_handling {ε : Type} (c : GithubContext ε) (o : JObj)
    (hp : c._payload = .obj o) :
    (c.repositoryCache = none →
      (Env.get c.env "GITHUB_REPOSITORY" = none ∨
        Env.get c.env "GITHUB_REPOSITORY" = some "") →
      Json.truthyOpt (JObj.lookup o "repository") = none →
      GithubContext.repositoryRead c = .ok (none,
        { c with repositoryCache := some none })) ∧
    (c.issueCache = none →
      Json.truthyOpt (JObj.lookup o "issue") = none →
      Json.truthyOpt (JObj.lookup o "pull_request") = none →
      JObj.lookup o "number" = none →
      GithubContext.issueRead c = .ok (none, { c with issueCache := some none })) ∧
    (∀ oi, c.issueCache = none →
      JObj.lookup o "issue" = some (.obj oi) → Json.truthy (.obj oi) = true →
      JObj.lookup oi "number" = none →
      GithubContext.issueRead c = .ok (none, { c with issueCache := some none })) ∧
    (∀ op, c.issueCache = none →
      Json.truthyOpt (JObj.lookup o "issue") = none →
      JObj.lookup o "pull_request" = some (.obj op) →
      Json.truthy (.obj op) = true →
      JObj.lookup op "number" = none →
      GithubContext.issueRead c = .ok (none, { c with issueCache := some none })) ∧
    (∀ ro, c.repositoryCache = none →
      (Env.get c.env "GITHUB_REPOSITORY" = none ∨
        Env.get c.env "GITHUB_REPOSITORY" = some "") →
      JObj.lookup o "repository" = some (.obj ro) → Json.truthy (.obj ro) = true →
      JObj.lookup ro "owner" = none →
      GithubContext.repositoryRead c = .error (.keyError "owner")) := by
  refine ⟨?_, ?_, ?_, ?_, ?_⟩
  · intro hrc henv htr
    rcases henv with henv | henv <;>
      simp [GithubContext.repositoryRead, hrc, GithubContext.repositoryCompute,
        henv, repositoryFromPayload, hp, Json.pyGet, htr]
  · intro hic h1 h2 h3
    simp only [GithubContext.issueRead, hic, GithubContext.issueCompute,
      GithubContext.candidatePayload, hp, Json.pyGet, h1, h2, h3]
    simp [Json.truthyOpt, hp]
  · intro oi hic h1 htr h2
    simp only [GithubContext.issueRead, hic, GithubContext.issueCompute,
      GithubContext.candidatePayload, hp, Json.pyGet, h1]
    simp [Json.truthyOpt, htr, h2, hp]
  · intro op hic h1 h2 htr h3
    simp only [GithubContext.issueRead, hic, GithubContext.issueCompute,
      GithubContext.candidatePayload, hp, Json.pyGet, h1, h2]
    simp [Json.truthyOpt, htr, h3, hp]
  · intro ro hrc henv h1 htr h2
    rcases henv with henv | henv <;>
    · simp only [GithubContext.repositoryRead, hrc,
        GithubContext.repositoryCompute, henv, repositoryFromPayload, hp,
        Json.pyGet, h1]
      simp [Json.truthyOpt, htr, Json.pyIndex, h2]

/-- Fresh context with an object payload that has no repository, issue,
pull_request or number members, for the claim C4 witness. -/
def absentAllCtx : GithubContext Json :=
  ⟨none, [], Json.null, Json.obj .nil, none, none⟩

/-- Fresh context whose payload issue object has no number, for the claim
C4 witness. -/
def issueNoNumberCtx : GithubContext Json :=
  ⟨none, [], Json.null,
    Json.obj (.cons "issue" (Json.obj (.cons "title" (Json.str "t") .nil)) .nil),
    none, none⟩

/-- Fresh context whose payload pull_request object has no number, for the
claim C4 witness. -/
def prNoNumberCtx : GithubContext Json :=
  ⟨none, [], Json.null,
    Json.obj (.cons "pull_request"
      (Json.obj (.cons "title" (Json.str "t") .nil)) .nil),
    none, none⟩

/-- Fresh context whose payload repository object lacks owner, shared by
the claim C4 witness and counterexample. -/
def repoNoOwnerCtx : GithubContext Json :=
  ⟨none, [], Json.null,
    Json.obj (.cons "repository"
      (Json.obj (.cons "name" (Json.str "widgets") .nil)) .nil),
    none, none⟩

/-- Claim C4, counterexample to the claim as stated: the payload is a valid
JSON object whose repository member merely lacks the owner field, yet
reading the repository accessor raises a KeyError instead of returning an
absent result. -/
theorem missing_owner_key_cex :
    GithubContext.repositoryRead repoNoOwnerCtx = .error (.keyError "owner") := by
  decide

/-- Claim C4, witness: each safe-absence arm at a concrete fresh instance,
plus the KeyError arm. -/
theorem safe_absence_handling_witness :
    GithubContext.repositoryRead absentAllCtx =
      .ok (none, { absentAllCtx with repositoryCache := some none }) ∧
    GithubContext.issueRead absentAllCtx =
      .ok (none, { absentAllCtx with issueCache := some none }) ∧
    GithubContext.issueRead issueNoNumberCtx =
      .ok (none, { issueNoNumberCtx with issueCache := some none }) ∧
    GithubContext.issueRead prNoNumberCtx =
      .ok (none, { prNoNumberCtx with issueCache := some none }) ∧
    GithubContext.repositoryRead repoNoOwnerCtx = .error (.keyError "owner") :=
  ⟨(safe_absence_handling absentAllCtx .nil rfl).1 rfl (Or.inl rfl) rfl,
   (safe_absence_handling absentAllCtx .nil rfl).2.1 rfl rfl rfl rfl,
   (safe_absence_handling issueNoNumberCtx _ rfl).2.2.1 _ rfl rfl (by decide) rfl,
   (safe_absence_handling prNoNumberCtx _ rfl).2.2.2.1 _ rfl rfl rfl (by decide) rfl,
   (safe_absence_handling repoNoOwnerCtx _ rfl).2.2.2.2 _ rfl (Or.inl rfl) rfl
     (by decide) rfl⟩

/-- Claim C5 (amended): from_file raises FileNotFoundError iff the single
resolved path — the explicit event_path argument if given and non-empty,
else the value of GITHUB_EVENT_PATH in the live environment — does not
denote an existing file; otherwise, if the file's contents parse as JSON,
it returns an accessor whose event value and raw payload both equal the
parsed JSON value and whose event_path accessor equals the resolved path,
and if parsing fails a ParseError propagates instead. -/
theorem from_file_behaviour (live : Env) (fs : FS) (environ : Option Env)
    (epArg : Option String) :
    (∀ p, fromFileResolved live epArg = p → FS.isFile fs p = false →
      GithubContext.from_file live fs environ epArg =
        .error (.fileNotFoundError p)) ∧
    (∀ p q, fromFileResolved live epArg = p → FS.isFile fs p = true →
      GithubContext.from_file live fs environ epArg ≠
        .error (.fileNotFoundError q)) ∧
    (∀ p j, fromFileResolved live epArg = p → FS.isFile fs p = true →
      FS.readJson fs p = .ok j →
      GithubContext.from_file live fs environ epArg =
        .ok ⟨some p, resolveSnapshot live environ, j, j, none, none⟩ ∧
      GithubContext.event_path
        (⟨some p, resolveSnapshot live environ, j, j, none, none⟩ :
          GithubContext Json) = some p) ∧
    (∀ p, fromFileResolved live epArg = p → FS.isFile fs p = true →
      FS.readJson fs p = .error .parseError →
      GithubContext.from_file live fs environ epArg = .error .parseError) := by
  refine ⟨?_, ?_, ?_, ?_⟩
  · intro p hres hfile
    simp [GithubContext.from_file, hres, hfile]
  · intro p q hres hfile
    have hfind : (FS.find fs p).isSome := by
      have := hfile
      unfold FS.isFile at this
      exact (Bool.and_eq_true _ _ ▸ this).2
    cases hd : FS.find fs p with
    | none => rw [hd] at hfind; cases hfind
    | some d =>
      cases d with
      | malformed =>
        simp [GithubContext.from_file, hres, hfile, FS.readJson, hd]
      | jsonFile j =>
        simp [GithubContext.from_file, hres, hfile, FS.readJson, hd,
          GithubContext.construct, GithubContext.event_path]
  · intro p j hres hfile hread
    constructor
    · simp [GithubContext.from_file, hres, hfile, hread,
        GithubContext.construct, GithubContext.event_path]
    · simp [GithubContext.event_path]
  · intro p hres hfile hread
    simp [GithubContext.from_file, hres, hfile, hread]

/-- Claim C5, counterexample to the claim as stated, in two closed parts.
First, with an explicit event_path argument naming a non-existent file
while GITHUB_EVENT_PATH names an existing one, from_file still raises
FileNotFoundError — the claim's "neither ... nor ..." condition is false
there, since GITHUB_EVENT_PATH does yield a path to an existing file.
Second, with a resolvable path to an existing but malformed file,
from_file neither raises FileNotFoundError nor returns an accessor: a
ParseError propagates, against the claim's "otherwise it returns an
accessor". -/
theorem from_file_cex :
    GithubContext.from_file [("GITHUB_EVENT_PATH", "good.json")]
        [("good.json", .jsonFile (Json.obj .nil))] none (some "bogus") =
      .error (.fileNotFoundError "bogus") ∧
    GithubContext.from_file [] [("bad.json", .malformed)] none
        (some "bad.json") = .error .parseError := by
  constructor <;> decide

/-- Parsed payload used by the claim C5 witness. -/
def fromFileEvent : Json := Json.obj (.cons "name" (Json.str "foo") .nil)

/-- Claim C5, witness: a missing file raises FileNotFoundError; an existing
file containing JSON yields an accessor whose event and raw payload both
equal the parsed value and whose event_path accessor is the resolved
path. -/
theorem from_file_behaviour_witness :
    GithubContext.from_file [] [] none (some "missing.json") =
      .error (.fileNotFoundError "missing.json") ∧
    GithubContext.from_file [] [("event.json", .jsonFile fromFileEvent)] none
        (some "event.json") =
      .ok ⟨some "event.json", [], fromFileEvent, fromFileEvent, none, none⟩ ∧
    GithubContext.event_path
      (⟨some "event.json", [], fromFileEvent, fromFileEvent, none, none⟩ :
        GithubContext Json) = some "event.json" :=
  ⟨(from_file_behaviour [] [] none (some "missing.json")).1 _ rfl rfl,
   ((from_file_behaviour [] [("event.json", .jsonFile fromFileEvent)] none
      (some "event.json")).2.2.1 _ fromFileEvent rfl rfl rfl).1,
   ((from_file_behaviour [] [("event.json", .jsonFile fromFileEvent)] none
      (some "event.json")).2.2.1 _ fromFileEvent rfl rfl rfl).2⟩

/-- Claim C7: at construction the payload file path is resolved as the
explicit event_path argument, else the (truthy) value of GITHUB_EVENT_PATH
in the snapshot, else absent; if the resolved path denotes a readable file
its contents are parsed as JSON into the raw payload (a parse failure on
malformed JSON propagating out of the constructor as a fatal ParseError),
otherwise — including when GITHUB_EVENT_PATH holds the empty string, which
never denotes a readable file — the raw payload is an empty mapping. -/
theorem construct_payload {ε : Type} (live : Env) (fs : FS)
    (environ : Option Env) (ev : ε) (epArg : Option String) :
    (∀ p j, epArg = some p → FS.isFile fs p = true →
      FS.readJson fs p = .ok j →
      GithubContext.construct live fs environ ev epArg =
        .ok ⟨epArg, resolveSnapshot live environ, ev, j, none, none⟩) ∧
    (∀ p, epArg = some p → FS.isFile fs p = true →
      FS.readJson fs p = .error .parseError →
      GithubContext.construct live fs environ ev epArg = .error .parseError) ∧
    (∀ p, epArg = some p → FS.isFile fs p = false →
      GithubContext.construct live fs environ ev epArg =
        .ok ⟨epArg, resolveSnapshot live environ, ev, Json.obj .nil,
          none, none⟩) ∧
    (∀ v j, epArg = none →
      Env.get (resolveSnapshot live environ) "GITHUB_EVENT_PATH" = some v →
      v ≠ "" → FS.isFile fs v = true → FS.readJson fs v = .ok j →
      GithubContext.construct live fs environ ev epArg =
        .ok ⟨none, resolveSnapshot live environ, ev, j, none, none⟩) ∧
    (∀ v, epArg = none →
      Env.get (resolveSnapshot live environ) "GITHUB_EVENT_PATH" = some v →
      v ≠ "" → FS.isFile fs v = true → FS.readJson fs v = .error .parseError →
      GithubContext.construct live fs environ ev epArg = .error .parseError) ∧
    (∀ v, epArg = none →
      Env.get (resolveSnapshot live environ) "GITHUB_EVENT_PATH" = some v →
      v ≠ "" → FS.isFile fs v = false →
      GithubContext.construct live fs environ ev epArg =
        .ok ⟨none, resolveSnapshot live environ, ev, Json.obj .nil,
          none, none⟩) ∧
    (epArg = none →
      Env.get (resolveSnapshot live environ) "GITHUB_EVENT_PATH" = some "" →
      GithubContext.construct live fs environ ev epArg =
        .ok ⟨none, resolveSnapshot live environ, ev, Json.obj .nil,
          none, none⟩) ∧
    (epArg = none →
      Env.get (resolveSnapshot live environ) "GITHUB_EVENT_PATH" = none →
      GithubContext.construct live fs environ ev epArg =
        .ok ⟨none, resolveSnapshot live environ, ev, Json.obj .nil,
          none, none⟩) := by
  refine ⟨?_, ?_, ?_, ?_, ?_, ?_, ?_, ?_⟩
  · intro p j hep hfile hread
    simp [GithubContext.construct, GithubContext.event_path, hep, hfile, hread]
  · intro p hep hfile hread
    simp [GithubContext.construct, GithubContext.event_path, hep, hfile, hread]
  · intro p hep hfile
    simp [GithubContext.construct, GithubContext.event_path, hep, hfile]
  · intro v j hep henv hne hfile hread
    simp [GithubContext.construct, GithubContext.event_path, hep, henv,
      if_neg hne, hfile, hread]
  · intro v hep henv hne hfile hread
    simp [GithubContext.construct, GithubContext.event_path, hep, henv,
      if_neg hne, hfile, hread]
  · intro v hep henv hne hfile
    simp [GithubContext.construct, GithubContext.event_path, hep, henv,
      if_neg hne, hfile]
  · intro hep henv
    simp [GithubContext.construct, GithubContext.event_path, hep, henv]
  · intro hep henv
    simp [GithubContext.construct, GithubContext.event_path, hep, henv]

/-- Claim C7, witness: the explicit-argument arm with a parsed payload, the
ParseError arm, the environment-fallback arm, the empty-value arm and the
unset arm, each at concrete inputs. -/
theorem construct_payload_witness :
    GithubContext.construct [] [("e.json", .jsonFile fromFileEvent)] none
        Json.null (some "e.json") =
      .ok ⟨some "e.json", [], Json.null, fromFileEvent, none, none⟩ ∧
    GithubContext.construct [] [("bad.json", .malformed)] none Json.null
        (some "bad.json") = .error .parseError ∧
    GithubContext.construct [("GITHUB_EVENT_PATH", "e.json")]
        [("e.json", .jsonFile fromFileEvent)] none Json.null none =
      .ok ⟨none, [("GITHUB_EVENT_PATH", "e.json")], Json.null, fromFileEvent,
        none, none⟩ ∧
    GithubContext.construct [("GITHUB_EVENT_PATH", "")]
        [("", .jsonFile fromFileEvent)] none Json.null none =
      .ok ⟨none, [("GITHUB_EVENT_PATH", "")], Json.null, Json.obj .nil,
        none, none⟩ ∧
    GithubContext.construct [] [] none Json.null none =
      .ok ⟨none, [], Json.null, Json.obj .nil, none, none⟩ :=
  ⟨(construct_payload [] [("e.json", .jsonFile fromFileEvent)] none Json.null
      (some "e.json")).1 _ _ rfl rfl rfl,
   (construct_payload [] [("bad.json", .malformed)] none Json.null
      (some "bad.json")).2.1 _ rfl rfl rfl,
   (construct_payload [("GITHUB_EVENT_PATH", "e.json")]
      [("e.json", .jsonFile fromFileEvent)] none Json.null none).2.2.2.1
      _ _ rfl rfl (by decide) rfl rfl,
   (construct_payload [("GITHUB_EVENT_PATH", "")]
      [("", .jsonFile fromFileEvent)] none Json.null none).2.2.2.2.2.2.1
      rfl rfl,
   (construct_payload [] [] none Json.null none).2.2.2.2.2.2.2 rfl rfl⟩

/-- A repository read never changes the environment snapshot. -/
theorem repositoryRead_env_of_ok {ε : Type} {c c' : GithubContext ε}
    {r : Option GitHubContextRepo}
    (h : GithubContext.repositoryRead c = .ok (r, c')) : c'.env = c.env := by
  unfold GithubContext.repositoryRead at h
  cases hc : c.repositoryCache with
  | some v => rw [hc] at h; cases h; rfl
  | none =>
    rw [hc] at h
    cases hr : GithubContext.repositoryCompute c with
    | ok v => rw [hr] at h; cases h; rfl
    | error e => rw [hr] at h; cases h

/-- Claim C8: repository_url returns the string
"{server_url}/{repository.owner}/{repository.name}" when repository is
present and absent when repository is absent (both via `Option.map` over
the memoized repository read, with f-string interpolation modelled by
`Json.pyStr`). -/
theorem repository_url_format {ε : Type} (c c' : GithubContext ε)
    (r : Option GitHubContextRepo)
    (h : GithubContext.repositoryRead c = .ok (r, c')) :
    GithubContext.repository_url c =
      .ok (r.map (fun repo => GithubContext.server_url c ++ "/" ++
        Json.pyStr repo.owner ++ "/" ++ Json.pyStr repo.name), c') := by
  have henv : c'.env = c.env := repositoryRead_env_of_ok h
  cases r with
  | none => simp [GithubContext.repository_url, h]
  | some repo =>
    simp [GithubContext.repository_url, h, GithubContext.server_url, henv]

/-- Fresh context with the repository in the environment and the server
URL left at its default, for the claim C8 witness. -/
def repoUrlCtx : GithubContext Json :=
  ⟨none, [("GITHUB_REPOSITORY", "acme/widgets")], Json.null, Json.obj .nil,
    none, none⟩

/-- Fresh context with no repository at all, for the claim C8 witness. -/
def repoUrlNoneCtx : GithubContext Json :=
  ⟨none, [], Json.null, Json.obj .nil, none, none⟩

/-- Claim C8, witness: with server_url at its default the URL is
"https://github.com/{owner}/{name}", and with repository absent the result
is absent. -/
theorem repository_url_format_witness :
    GithubContext.repository_url repoUrlCtx =
      .ok (some "https://github.com/acme/widgets",
        { repoUrlCtx with
          repositoryCache := some (some ⟨Json.str "acme", Json.str "widgets"⟩) }) ∧
    GithubContext.repository_url repoUrlNoneCtx =
      .ok (none, { repoUrlNoneCtx with repositoryCache := some none }) := by
  constructor
  · have := repository_url_format repoUrlCtx
      { repoUrlCtx with
        repositoryCache := some (some ⟨Json.str "acme", Json.str "widgets"⟩) }
      (some ⟨Json.str "acme", Json.str "widgets"⟩) (by decide)
    simpa using this
  · have := repository_url_format repoUrlNoneCtx
      { repoUrlNoneCtx with repositoryCache := some none } none (by decide)
    simpa using this

/-- Claim C9: constructing with an explicitly supplied empty environment
mapping behaves exactly as when the environment argument is omitted — the
empty snapshot is not used, the live environment is captured instead, and
only a non-empty explicit snapshot is used as given. -/
theorem empty_environ_uses_live {ε : Type} (live : Env) (fs : FS) (ev : ε)
    (epArg : Option String) :
    GithubContext.construct live fs (some []) ev epArg =
      GithubContext.construct live fs none ev epArg ∧
    resolveSnapshot live (some []) = live ∧
    (∀ e : Env, e ≠ [] → resolveSnapshot live (some e) = e) := by
  refine ⟨rfl, rfl, ?_⟩
  intro e he
  cases e with
  | nil => exact absurd rfl he
  | cons a t => rfl

/-- Claim C9, witness: a concrete live environment with an explicit empty
snapshot, and a concrete non-empty snapshot taken as given. -/
theorem empty_environ_uses_live_witness :
    GithubContext.construct [("GITHUB_ACTOR", "octocat")] [] (some [])
        Json.null none =
      GithubContext.construct [("GITHUB_ACTOR", "octocat")] [] none
        Json.null none ∧
    resolveSnapshot [("GITHUB_ACTOR", "octocat")] (some []) =
      [("GITHUB_ACTOR", "octocat")] ∧
    resolveSnapshot [("GITHUB_ACTOR", "octocat")]
        (some [("GITHUB_SHA", "x")]) = [("GITHUB_SHA", "x")] :=
  ⟨(empty_environ_uses_live [("GITHUB_ACTOR", "octocat")] [] Json.null none).1,
   (empty_environ_uses_live [("GITHUB_ACTOR", "octocat")] [] Json.null none).2.1,
   (empty_environ_uses_live [("GITHUB_ACTOR", "octocat")] [] Json.null none).2.2
     _ (by decide)⟩

/-- Claim C10: the number stored in the IssueRef is the value taken
verbatim from the raw payload without conversion — the named tuple's
`number` field is declared `str` in the source, but whatever JSON value
the payload holds (here bound as `nv`, e.g. a JSON number) is carried
through unchanged. -/
theorem issue_number_verbatim {ε : Type} (c : GithubContext ε) (o : JObj)
    (nv : Json) (r : GitHubContextRepo) (c' : GithubContext ε)
    (hic : c.issueCache = none) (hp : c._payload = .obj o)
    (hiss : JObj.lookup o "issue" = none)
    (hpr : JObj.lookup o "pull_request" = none)
    (hn : JObj.lookup o "number" = some nv) (htr : Json.truthy nv = true)
    (hr : GithubContext.repositoryRead c = .ok (some r, c')) :
    GithubContext.issueRead c = .ok (some ⟨r.owner, r.name, nv⟩,
      { c' with issueCache := some (some ⟨r.owner, r.name, nv⟩) }) := by
  simp only [GithubContext.issueRead, hic, GithubContext.issueCompute,
    GithubContext.candidatePayload, hp, Json.pyGet, hiss, hpr]
  simp [Json.truthyOpt, hp, hn, htr, hr]

/-- Fresh context whose payload carries a JSON number (not a string) in its
top-level number field, for the claim C10 witness. -/
def numberVerbatimCtx : GithubContext Json :=
  ⟨none, [("GITHUB_REPOSITORY", "user/repo")], Json.null,
    Json.obj (.cons "number" (Json.num 9) .nil), none, none⟩

/-- Claim C10, witness: with the payload's number field holding the JSON
number 9, the returned IssueRef carries `Json.num 9` — the non-string
value itself, not a string rendering of it. -/
theorem issue_number_verbatim_witness :
    GithubContext.issueRead numberVerbatimCtx =
      .ok (some ⟨Json.str "user", Json.str "repo", Json.num 9⟩,
        { numberVerbatimCtx with
          repositoryCache := some (some ⟨Json.str "user", Json.str "repo"⟩),
          issueCache :=
            some (some ⟨Json.str "user", Json.str "repo", Json.num 9⟩) }) :=
  issue_number_verbatim numberVerbatimCtx (.cons "number" (Json.num 9) .nil)
    (Json.num 9) ⟨Json.str "user", Json.str "repo"⟩
    { numberVerbatimCtx with
      repositoryCache := some (some ⟨Json.str "user", Json.str "repo"⟩) }
    rfl rfl rfl rfl rfl (by decide) (by decide)
